import Mathlib

/-!
Shallow embedding of the homework-status bot (`homework.py`, `exceptions.py`).

Python runtime values that can appear in a parsed JSON body are embedded as
`PyVal`; Python exceptions raised by the program are embedded as `PyError`
carrying their message string; fallible functions return `Except PyError _`.
The main loop is embedded as a step function on an explicit state
(`LoopState`), with the per-cycle external world (network outcome, delivery
outcome, wall clock) passed in as a `CycleEnv`.
-/

set_option autoImplicit false

namespace HomeworkBot

/-- A Python value as delivered by JSON parsing (`response.json()`). -/
inductive PyVal where
  | none : PyVal
  | bool : Bool → PyVal
  | int : Int → PyVal
  | str : String → PyVal
  | list : List PyVal → PyVal
  | dict : List (String × PyVal) → PyVal

/-- Python exceptions raised by the program, with the message they carry.
`missingTokenError` and `invalidResponseError` embed the two custom
exception classes imported by `homework.py`; the rest are builtins. -/
inductive PyError where
  | missingTokenError : String → PyError
  | connectionError : String → PyError
  | invalidResponseError : String → PyError
  | typeError : String → PyError
  | keyError : String → PyError
  | valueError : String → PyError
  | importError : String → PyError
  deriving DecidableEq, Repr

/-- The message string carried by an exception (Python `str(error)`). -/
def PyError.message : PyError → String
  | .missingTokenError m => m
  | .connectionError m => m
  | .invalidResponseError m => m
  | .typeError m => m
  | .keyError m => m
  | .valueError m => m
  | .importError m => m

/-- Python `type(v)` rendered the way it appears in f-strings. -/
def PyVal.typeName : PyVal → String
  | .none => "<class \x27NoneType\x27>"
  | .bool _ => "<class \x27bool\x27>"
  | .int _ => "<class \x27int\x27>"
  | .str _ => "<class \x27str\x27>"
  | .list _ => "<class \x27list\x27>"
  | .dict _ => "<class \x27dict\x27>"

/-- First-match lookup in an embedded dict (Python dicts have unique keys). -/
def dictGet? : List (String × PyVal) → String → Option PyVal
  | [], _ => Option.none
  | (k, v) :: rest, key => if k == key then some v else dictGet? rest key

/-- Python `key in d` on an embedded dict. -/
def dictContains (kvs : List (String × PyVal)) (key : String) : Bool :=
  (dictGet? kvs key).isSome

/-- `d.get(key, default)` on a `PyVal` known to be used as a mapping:
on a dict it looks the key up, defaulting; any other value has no `.get`,
modelled by the default (this branch is unreachable in the program since
`check_response` has established the value is a dict). -/
def PyVal.get (v : PyVal) (key : String) (default : PyVal) : PyVal :=
  match v with
  | .dict kvs => (dictGet? kvs key).getD default
  | _ => default

mutual

/-- Python `str(v)` (used by f-string interpolation). -/
def PyVal.pyStr : PyVal → String
  | .none => "None"
  | .bool true => "True"
  | .bool false => "False"
  | .int n => toString n
  | .str s => s
  | .list xs => "[" ++ pyStrList xs ++ "]"
  | .dict kvs => "\x7b" ++ pyStrDict kvs ++ "\x7d"

/-- Python `repr(v)`, used for elements of containers. -/
def PyVal.pyRepr : PyVal → String
  | .none => "None"
  | .bool true => "True"
  | .bool false => "False"
  | .int n => toString n
  | .str s => "\x27" ++ s ++ "\x27"
  | .list xs => "[" ++ pyStrList xs ++ "]"
  | .dict kvs => "\x7b" ++ pyStrDict kvs ++ "\x7d"

/-- Comma-separated reprs of list elements. -/
def pyStrList : List PyVal → String
  | [] => ""
  | [x] => x.pyRepr
  | x :: xs => x.pyRepr ++ ", " ++ pyStrList xs

/-- Comma-separated `key: value` reprs of dict entries. -/
def pyStrDict : List (String × PyVal) → String
  | [] => ""
  | [(k, v)] => "\x27" ++ k ++ "\x27: " ++ v.pyRepr
  | (k, v) :: kvs => "\x27" ++ k ++ "\x27: " ++ v.pyRepr ++ ", " ++ pyStrDict kvs

end

/-- `HOMEWORK_VERDICTS` (homework.py lines 29-33). -/
def HOMEWORK_VERDICTS : List (String × String) :=
  [("approved", "Работа проверена: ревьюеру всё понравилось. Ура!"),
   ("reviewing", "Работа взята на проверку ревьюером."),
   ("rejected", "Работа проверена: у ревьюера есть замечания.")]

/-- Python truthiness test `not token_value` on an environment variable:
`os.getenv` yields `None` when unset; `None` and the empty string are falsy. -/
def tokenFalsy : Option String → Bool
  | Option.none => true
  | some s => s == ""

/-- `check_tokens` (homework.py lines 36-51): raises `MissingTokenError`
when any of the three required environment values is absent or empty. -/
def check_tokens (practicum_token telegram_token telegram_chat_id : Option String) :
    Except PyError Unit :=
  let tokens : List (String × Option String) :=
    [("PRACTICUM_TOKEN", practicum_token),
     ("TELEGRAM_TOKEN", telegram_token),
     ("TELEGRAM_CHAT_ID", telegram_chat_id)]
  let missing_tokens := (tokens.filter (fun p => tokenFalsy p.2)).map (fun p => p.1)
  if missing_tokens.isEmpty then Except.ok ()
  else Except.error (PyError.missingTokenError "Доступны не все обязательные токены")

/-- `check_response` (homework.py lines 89-104): validates that the parsed
body is a dict, contains the key `homeworks`, and that its value is a list;
returns the list unchanged. -/
def check_response (response : PyVal) : Except PyError (List PyVal) :=
  match response with
  | PyVal.dict kvs =>
    if dictContains kvs "homeworks" then
      match (dictGet? kvs "homeworks").getD PyVal.none with
      | PyVal.list homeworks => Except.ok homeworks
      | other =>
        Except.error (PyError.typeError
          ("Неверный формат данных с ключом \"homeworks\": " ++ other.typeName ++ "."))
    else Except.error (PyError.keyError "Отсутствует ключ \"homeworks\" в ответе API.")
  | other =>
    Except.error (PyError.typeError ("Неверный тип данных: " ++ other.typeName))

/-- `homework_status not in HOMEWORK_VERDICTS` together with the
subsequent indexing: dict membership hashes its left operand, so an
unhashable value (a list or a dict) raises `TypeError: unhashable type`
at the membership test itself; a hashable non-string is simply not a key;
a string selects its verdict when present. -/
def verdictMembership : PyVal → Except PyError (Option String)
  | PyVal.str s => Except.ok (List.lookup s HOMEWORK_VERDICTS)
  | PyVal.list _ => Except.error (PyError.typeError "unhashable type: \x27list\x27")
  | PyVal.dict _ => Except.error (PyError.typeError "unhashable type: \x27dict\x27")
  | _ => Except.ok Option.none

/-- `parse_status` (homework.py lines 107-124): checks the entry is a dict
with `status` and `homework_name` fields, maps the status through
`HOMEWORK_VERDICTS` (unknown status is a `ValueError`), and formats the
notification sentence. -/
def parse_status (homework : PyVal) : Except PyError String :=
  match homework with
  | PyVal.dict kvs =>
    if !dictContains kvs "status" then
      Except.error (PyError.keyError "Отсутствует обязательное поле: status")
    else if !dictContains kvs "homework_name" then
      Except.error (PyError.keyError "Отсутствует обязательное поле: homework_name")
    else
      let homework_status := (dictGet? kvs "status").getD PyVal.none
      let homework_name := (dictGet? kvs "homework_name").getD PyVal.none
      match verdictMembership homework_status with
      | Except.error e => Except.error e
      | Except.ok (some verdict) =>
        Except.ok ("Изменился статус проверки работы \"" ++ homework_name.pyStr ++ "\". "
          ++ verdict)
      | Except.ok Option.none =>
        Except.error (PyError.valueError
          ("Неизвестный статус домашней работы: " ++ homework_status.pyStr))
  | other =>
    Except.error (PyError.typeError ("Не верный формат homework: " ++ other.typeName))

/-! ## Network, delivery and the main loop -/

/-- What the HTTP transport did on one `requests.get` call: a transport-level
exception (`requests.RequestException`, carrying its text), or a response
with a status code and a parsed JSON body. -/
inductive Transport where
  | exn : String → Transport
  | response : Int → PyVal → Transport

/-- `get_api_answer` (homework.py lines 69-86): transport failures are
wrapped into `ConnectionError`; a non-200 status raises
`InvalidResponseError`; a 200 response's parsed body is returned as-is. -/
def get_api_answer (transport : Transport) : Except PyError PyVal :=
  match transport with
  | Transport.exn e =>
    Except.error (PyError.connectionError ("Ошибка соединения с API: " ++ e))
  | Transport.response status body =>
    if status == 200 then Except.ok body
    else Except.error (PyError.invalidResponseError
      ("Невалидный ответ: " ++ toString status))

/-- The external world during one iteration of the loop: the transport
outcome of the fetch, whether the Telegram delivery attempt (if reached)
succeeds (`send_message` returns `True`) or fails with a caught
`ApiException`/`RequestException` (returns `False`), and `int(time.time())`
at the moment the cursor-fallback would read it. -/
structure CycleEnv where
  transport : Transport
  sendOk : Bool
  now : Int

/-- The mutable state `main` carries across iterations (homework.py lines
131-132): the poll cursor `timestamp` (a `PyVal`, since
`response.get("current_date", ...)` can put any JSON value there) and
`last_error_message`. -/
structure LoopState where
  timestamp : PyVal
  last_error_message : String

/-- The `try` block of one loop iteration (homework.py lines 134-148):
fetch, validate, and for a non-empty list format the first entry and
attempt delivery. Returns the new cursor value together with the list of
texts handed to the messaging collaborator (one delivery attempt per
element). -/
def cycle_body (s : LoopState) (env : CycleEnv) : Except PyError (PyVal × List String) :=
  match get_api_answer env.transport with
  | Except.error e => Except.error e
  | Except.ok response =>
    match check_response response with
    | Except.error e => Except.error e
    | Except.ok homeworks =>
      match homeworks with
      | [] => Except.ok (s.timestamp, [])
      | latest_homework :: _ =>
        match parse_status latest_homework with
        | Except.error e => Except.error e
        | Except.ok current_status =>
          if env.sendOk then
            Except.ok (response.get "current_date" (PyVal.int env.now), [current_status])
          else
            Except.ok (s.timestamp, [current_status])

/-- One full iteration of `while True` (homework.py lines 133-159),
including the `except Exception` handler: returns the state carried into
the next iteration and the delivery attempts made. The handler catches
every error and only updates the error-deduplication string. -/
def loop_step (s : LoopState) (env : CycleEnv) : LoopState × List String :=
  match cycle_body s env with
  | Except.ok (ts, attempts) => (⟨ts, s.last_error_message⟩, attempts)
  | Except.error error =>
    let message := "Сбой в работе программы: " ++ error.message
    if message != s.last_error_message then (⟨s.timestamp, message⟩, [])
    else (⟨s.timestamp, s.last_error_message⟩, [])

/-- Finitely many iterations of the loop: the state after the last cycle
and all delivery attempts, in order. Each iteration ends in the `finally`
sleep and then continues; no error terminates the iteration sequence. -/
def run_loop (s : LoopState) : List CycleEnv → LoopState × List String
  | [] => (s, [])
  | env :: rest =>
    let (s1, attempts) := loop_step s env
    let (s2, more) := run_loop s1 rest
    (s2, attempts ++ more)

/-- Outcome of `main`'s startup phase (homework.py lines 127-133). -/
inductive MainStart where
  | startupFailure : PyError → MainStart
  | enteredLoop : LoopState → MainStart

/-- Startup of `main`: `check_tokens()` runs once before the loop; if it
raises, the exception propagates and the `while True` loop is never
entered; otherwise the loop starts with `timestamp = int(time.time())` and
`last_error_message = ""`. -/
def main_start (practicum_token telegram_token telegram_chat_id : Option String)
    (now : Int) : MainStart :=
  match check_tokens practicum_token telegram_token telegram_chat_id with
  | Except.error e => MainStart.startupFailure e
  | Except.ok () => MainStart.enteredLoop ⟨PyVal.int now, ""⟩

/-! ## Module loading (`import` statements) -/

/-- The names bound at top level of `exceptions.py` (lines 1-6): it defines
`MissingTokenException` and `InvalidResponseException`. -/
def exceptions_module_names : List String :=
  ["MissingTokenException", "InvalidResponseException"]

/-- The names `homework.py` line 12 imports from the `exceptions` module. -/
def homework_imported_names : List String :=
  ["MissingTokenError", "InvalidResponseError"]

/-- `from exceptions import n1, n2`: fails with `ImportError` at the first
requested name the module does not define. -/
def import_from (defined requested : List String) : Except PyError Unit :=
  match requested.find? (fun n => !(defined.contains n)) with
  | some n =>
    Except.error (PyError.importError
      ("cannot import name \x27" ++ n ++ "\x27 from \x27exceptions\x27"))
  | Option.none => Except.ok ()

/-- Loading and running `homework.py`: the module-level `import` runs
before any function is defined or called; only if it succeeds does `main`'s
startup run. -/
def load_and_run (practicum_token telegram_token telegram_chat_id : Option String)
    (now : Int) : Except PyError MainStart :=
  match import_from exceptions_module_names homework_imported_names with
  | Except.error e => Except.error e
  | Except.ok () =>
    Except.ok (main_start practicum_token telegram_token telegram_chat_id now)

/-! ## Helper lemmas -/

/-- A status string differing from all three known codes is not a key of
`HOMEWORK_VERDICTS`. -/
theorem lookup_verdicts_eq_none (s : String)
    (h : ¬(s = "approved" ∨ s = "reviewing" ∨ s = "rejected")) :
    List.lookup s HOMEWORK_VERDICTS = Option.none := by
  push_neg at h
  obtain ⟨h1, h2, h3⟩ := h
  simp [HOMEWORK_VERDICTS, List.lookup, beq_eq_false_iff_ne.mpr h1,
    beq_eq_false_iff_ne.mpr h2, beq_eq_false_iff_ne.mpr h3]

end HomeworkBot

namespace HomeworkBot

/-! ## Claim theorems -/

/-- C6: for the review entry with status `"approved"` and name
`"Homework test"`, `parse_status` returns exactly the templated sentence
embedding the name and the verdict text that `HOMEWORK_VERDICTS` associates
with `"approved"`, with no other wording. -/
theorem c6_golden_format :
    parse_status (PyVal.dict
        [("status", PyVal.str "approved"),
         ("homework_name", PyVal.str "Homework test")]) =
      Except.ok ("Изменился статус проверки работы \"Homework test\". "
        ++ "Работа проверена: ревьюеру всё понравилось. Ура!")
    ∧ List.lookup "approved" HOMEWORK_VERDICTS =
        some "Работа проверена: ревьюеру всё понравилось. Ура!" :=
  ⟨rfl, rfl⟩

/-- C9: loading the program fails unconditionally with an `ImportError`:
`homework.py` imports `MissingTokenError` and `InvalidResponseError` from
the `exceptions` module, but that module only defines
`MissingTokenException` and `InvalidResponseException`; so for every
configuration of the three secrets the program fails before the credential
check can run. -/
theorem c9_import_always_fails (practicum_token telegram_token telegram_chat_id :
    Option String) (now : Int) :
    load_and_run practicum_token telegram_token telegram_chat_id now =
      Except.error (PyError.importError
        "cannot import name \x27MissingTokenError\x27 from \x27exceptions\x27") :=
  rfl

/-- C1 is violated by the code: running two consecutive cycles on the very
same response (same non-empty review list, hence the same formatted
sentence) with successful delivery yields a delivery attempt in BOTH
cycles — `main` keeps no last-sent-message baseline, so the second
invocation with an unchanged sentence sends again, contradicting the
claimed idempotence. -/
theorem c1_second_identical_cycle_sends_again :
    (loop_step ⟨PyVal.int 0, ""⟩
        ⟨Transport.response 200 (PyVal.dict
          [("homeworks", PyVal.list [PyVal.dict
              [("status", PyVal.str "approved"), ("homework_name", PyVal.str "X")]]),
           ("current_date", PyVal.int 1000)]), true, 5⟩).2 =
      ["Изменился статус проверки работы \"X\". Работа проверена: ревьюеру всё понравилось. Ура!"]
    ∧ (loop_step
        (loop_step ⟨PyVal.int 0, ""⟩
          ⟨Transport.response 200 (PyVal.dict
            [("homeworks", PyVal.list [PyVal.dict
                [("status", PyVal.str "approved"), ("homework_name", PyVal.str "X")]]),
             ("current_date", PyVal.int 1000)]), true, 5⟩).1
        ⟨Transport.response 200 (PyVal.dict
          [("homeworks", PyVal.list [PyVal.dict
              [("status", PyVal.str "approved"), ("homework_name", PyVal.str "X")]]),
           ("current_date", PyVal.int 1000)]), true, 5⟩).2 =
      ["Изменился статус проверки работы \"X\". Работа проверена: ревьюеру всё понравилось. Ура!"] :=
  ⟨rfl, rfl⟩

/-- C3: if any of the three required secrets is absent (`None`) or empty,
`main`'s startup raises the missing-credential error and the polling loop
is never entered. -/
theorem c3_startup_abort (practicum_token telegram_token telegram_chat_id : Option String)
    (now : Int)
    (h : tokenFalsy practicum_token = true ∨ tokenFalsy telegram_token = true ∨
      tokenFalsy telegram_chat_id = true) :
    main_start practicum_token telegram_token telegram_chat_id now =
      MainStart.startupFailure
        (PyError.missingTokenError "Доступны не все обязательные токены")
    ∧ ∀ s, main_start practicum_token telegram_token telegram_chat_id now ≠
        MainStart.enteredLoop s := by
  have hcheck : check_tokens practicum_token telegram_token telegram_chat_id =
      Except.error (PyError.missingTokenError "Доступны не все обязательные токены") := by
    unfold check_tokens
    cases hp : tokenFalsy practicum_token <;>
      cases ht : tokenFalsy telegram_token <;>
        cases hc : tokenFalsy telegram_chat_id <;>
          simp_all [List.filter]
  refine ⟨?_, ?_⟩
  · unfold main_start
    rw [hcheck]
  · intro s hcontra
    unfold main_start at hcontra
    rw [hcheck] at hcontra
    exact MainStart.noConfusion hcontra

/-- C3 witness: with an empty API credential and the two other secrets
present, startup fails with the missing-credential error. -/
theorem c3_startup_abort_witness :
    main_start (some "") (some "bot-token") (some "42") 1700000000 =
      MainStart.startupFailure
        (PyError.missingTokenError "Доступны не все обязательные токены")
    ∧ ∀ s, main_start (some "") (some "bot-token") (some "42") 1700000000 ≠
        MainStart.enteredLoop s :=
  c3_startup_abort (some "") (some "bot-token") (some "42") 1700000000 (Or.inl rfl)

/-- C4: `check_response` raises a `TypeError` on a non-dict value, a
`KeyError` on a dict without the key `homeworks`, a `TypeError` when that
key's value is not a list, and otherwise returns the list of entries
unchanged — in particular the error cases never depend on, nor read, any
review entry, and the success case returns an arbitrary entry list `l`
as-is. -/
theorem c4_check_response_shape (v : PyVal) :
    ((∀ kvs, v ≠ PyVal.dict kvs) →
        check_response v =
          Except.error (PyError.typeError ("Неверный тип данных: " ++ v.typeName)))
    ∧ (∀ kvs, v = PyVal.dict kvs → dictGet? kvs "homeworks" = Option.none →
        check_response v =
          Except.error (PyError.keyError "Отсутствует ключ \"homeworks\" в ответе API."))
    ∧ (∀ kvs w, v = PyVal.dict kvs → dictGet? kvs "homeworks" = some w →
        (∀ l, w ≠ PyVal.list l) →
        check_response v = Except.error (PyError.typeError
          ("Неверный формат данных с ключом \"homeworks\": " ++ w.typeName ++ ".")))
    ∧ (∀ kvs l, v = PyVal.dict kvs → dictGet? kvs "homeworks" = some (PyVal.list l) →
        check_response v = Except.ok l) := by
  refine ⟨?_, ?_, ?_, ?_⟩
  · intro hnd
    cases v with
    | dict kvs => exact absurd rfl (hnd kvs)
    | none => rfl
    | bool b => rfl
    | int n => rfl
    | str s => rfl
    | list xs => rfl
  · intro kvs hv hnone
    subst hv
    unfold check_response
    simp [dictContains, hnone]
  · intro kvs w hv hsome hnl
    subst hv
    unfold check_response
    simp only [dictContains, hsome, Option.isSome_some, if_true, Option.getD_some]
  · intro kvs l hv hsome
    subst hv
    unfold check_response
    simp [dictContains, hsome]

/-- C4 witness: the four branches of `check_response` at concrete inputs:
a non-dict body, a dict without `homeworks`, a dict whose `homeworks` is
not a list, and a well-shaped dict whose entry list comes back unchanged. -/
theorem c4_check_response_shape_witness :
    check_response (PyVal.int 3) =
      Except.error (PyError.typeError ("Неверный тип данных: " ++ (PyVal.int 3).typeName))
    ∧ check_response (PyVal.dict [("current_date", PyVal.int 9)]) =
        Except.error (PyError.keyError "Отсутствует ключ \"homeworks\" в ответе API.")
    ∧ check_response (PyVal.dict [("homeworks", PyVal.int 7)]) =
        Except.error (PyError.typeError
          ("Неверный формат данных с ключом \"homeworks\": " ++ (PyVal.int 7).typeName ++ "."))
    ∧ check_response (PyVal.dict [("homeworks", PyVal.list [PyVal.str "e"])]) =
        Except.ok [PyVal.str "e"] :=
  ⟨(c4_check_response_shape (PyVal.int 3)).1 (fun _ h => PyVal.noConfusion h),
   (c4_check_response_shape _).2.1 _ rfl rfl,
   (c4_check_response_shape _).2.2.1 _ (PyVal.int 7) rfl rfl (fun _ h => PyVal.noConfusion h),
   (c4_check_response_shape _).2.2.2 _ [PyVal.str "e"] rfl rfl⟩

/-- C5 fails as stated: at an entry whose status is a (JSON-reachable)
list, the membership test `homework_status not in HOMEWORK_VERDICTS`
hashes the status and raises `TypeError: unhashable type` — not the
unknown-status `ValueError` the claim asserts for every status outside
the known set. -/
theorem c5_unhashable_status_counterexample :
    parse_status (PyVal.dict
        [("status", PyVal.list []), ("homework_name", PyVal.str "Homework test")]) =
      Except.error (PyError.typeError "unhashable type: \x27list\x27")
    ∧ ∀ msg, parse_status (PyVal.dict
        [("status", PyVal.list []), ("homework_name", PyVal.str "Homework test")]) ≠
        Except.error (PyError.valueError msg) :=
  ⟨rfl, fun msg hcontra => by
    rw [show parse_status (PyVal.dict
        [("status", PyVal.list []), ("homework_name", PyVal.str "Homework test")]) =
        Except.error (PyError.typeError "unhashable type: \x27list\x27") from rfl] at hcontra
    injection hcontra with h
    exact PyError.noConfusion h⟩

/-- C5 (amended): for a review entry that is a dict carrying both
`status` and `homework_name`, if its status is hashable (not a list and
not a dict) and not one of the three known codes (a string outside the
known set, or a hashable non-string), `parse_status` raises the
unknown-status `ValueError` and produces no formatted message; an
unhashable list or dict status instead raises `TypeError: unhashable
type` at the membership test — in neither case is a message produced. -/
theorem c5_unknown_status_raises (kvs : List (String × PyVal)) (status : PyVal)
    (hs : dictGet? kvs "status" = some status)
    (hn : dictContains kvs "homework_name" = true)
    (hhash : (∀ xs, status ≠ PyVal.list xs) ∧ (∀ m, status ≠ PyVal.dict m))
    (hu : ∀ s : String, status = PyVal.str s →
      ¬(s = "approved" ∨ s = "reviewing" ∨ s = "rejected")) :
    parse_status (PyVal.dict kvs) =
      Except.error (PyError.valueError
        ("Неизвестный статус домашней работы: " ++ status.pyStr))
    ∧ ∀ msg, parse_status (PyVal.dict kvs) ≠ Except.ok msg := by
  have hv : verdictMembership status = Except.ok Option.none := by
    cases status with
    | str s =>
      have hlk := lookup_verdicts_eq_none s (hu s rfl)
      simp [verdictMembership, hlk]
    | none => rfl
    | bool b => rfl
    | int n => rfl
    | list xs => exact absurd rfl (hhash.1 xs)
    | dict kvs2 => exact absurd rfl (hhash.2 kvs2)
  have hcs : dictContains kvs "status" = true := by simp [dictContains, hs]
  have hmain : parse_status (PyVal.dict kvs) =
      Except.error (PyError.valueError
        ("Неизвестный статус домашней работы: " ++ status.pyStr)) := by
    unfold parse_status
    simp [hcs, hn, hs, hv]
  exact ⟨hmain, fun msg hcontra => by rw [hmain] at hcontra; exact Except.noConfusion hcontra⟩

/-- C5 witness: an entry with both fields but status `"unknown"` (a
hashable string outside the known set) raises the unknown-status error
and yields no message. -/
theorem c5_unknown_status_raises_witness :
    parse_status (PyVal.dict
        [("status", PyVal.str "unknown"), ("homework_name", PyVal.str "Homework test")]) =
      Except.error (PyError.valueError
        ("Неизвестный статус домашней работы: " ++ (PyVal.str "unknown").pyStr))
    ∧ ∀ msg, parse_status (PyVal.dict
        [("status", PyVal.str "unknown"), ("homework_name", PyVal.str "Homework test")]) ≠
        Except.ok msg :=
  c5_unknown_status_raises _ (PyVal.str "unknown") rfl rfl
    ⟨fun _ h => PyVal.noConfusion h, fun _ h => PyVal.noConfusion h⟩
    (by intro s hs; injection hs with h; subst h; decide)

/-- C2: in a cycle that reaches the notify step (fetch returned a body,
validation yielded a non-empty list, the first entry was formatted), if
delivery fails the poll cursor after the cycle equals the cursor before
the cycle, and if delivery succeeds it equals the server-supplied
`current_date` field of that cycle's response body. -/
theorem c2_cursor_advance (s : LoopState) (env : CycleEnv) (body hw : PyVal)
    (rest : List PyVal) (msg : String)
    (hb : get_api_answer env.transport = Except.ok body)
    (hc : check_response body = Except.ok (hw :: rest))
    (hp : parse_status hw = Except.ok msg) :
    (env.sendOk = false → (loop_step s env).1.timestamp = s.timestamp)
    ∧ (∀ kvs cd, env.sendOk = true → body = PyVal.dict kvs →
        dictGet? kvs "current_date" = some cd →
        (loop_step s env).1.timestamp = cd) := by
  refine ⟨?_, ?_⟩
  · intro hsend
    unfold loop_step cycle_body
    simp [hb, hc, hp, hsend]
  · intro kvs cd hsend hbody hcd
    subst hbody
    unfold loop_step cycle_body
    simp [hb, hc, hp, hsend, PyVal.get, hcd]

/-- C2 witness: a response carrying `current_date = 1000` and one entry:
with failing delivery the cursor stays `0`; with successful delivery it
becomes `1000`. -/
theorem c2_cursor_advance_witness :
    (loop_step ⟨PyVal.int 0, ""⟩
        ⟨Transport.response 200 (PyVal.dict
          [("homeworks", PyVal.list [PyVal.dict
              [("status", PyVal.str "reviewing"), ("homework_name", PyVal.str "X")]]),
           ("current_date", PyVal.int 1000)]), false, 77⟩).1.timestamp = PyVal.int 0
    ∧ (loop_step ⟨PyVal.int 0, ""⟩
        ⟨Transport.response 200 (PyVal.dict
          [("homeworks", PyVal.list [PyVal.dict
              [("status", PyVal.str "reviewing"), ("homework_name", PyVal.str "X")]]),
           ("current_date", PyVal.int 1000)]), true, 77⟩).1.timestamp = PyVal.int 1000 :=
  ⟨(c2_cursor_advance ⟨PyVal.int 0, ""⟩
      ⟨Transport.response 200 (PyVal.dict
        [("homeworks", PyVal.list [PyVal.dict
            [("status", PyVal.str "reviewing"), ("homework_name", PyVal.str "X")]]),
         ("current_date", PyVal.int 1000)]), false, 77⟩
      (PyVal.dict
        [("homeworks", PyVal.list [PyVal.dict
            [("status", PyVal.str "reviewing"), ("homework_name", PyVal.str "X")]]),
         ("current_date", PyVal.int 1000)])
      (PyVal.dict [("status", PyVal.str "reviewing"), ("homework_name", PyVal.str "X")])
      [] ("Изменился статус проверки работы \"X\". Работа взята на проверку ревьюером.")
      rfl rfl rfl).1 rfl,
   (c2_cursor_advance ⟨PyVal.int 0, ""⟩
      ⟨Transport.response 200 (PyVal.dict
        [("homeworks", PyVal.list [PyVal.dict
            [("status", PyVal.str "reviewing"), ("homework_name", PyVal.str "X")]]),
         ("current_date", PyVal.int 1000)]), true, 77⟩
      (PyVal.dict
        [("homeworks", PyVal.list [PyVal.dict
            [("status", PyVal.str "reviewing"), ("homework_name", PyVal.str "X")]]),
         ("current_date", PyVal.int 1000)])
      (PyVal.dict [("status", PyVal.str "reviewing"), ("homework_name", PyVal.str "X")])
      [] ("Изменился статус проверки работы \"X\". Работа взята на проверку ревьюером.")
      rfl rfl rfl).2
      [("homeworks", PyVal.list [PyVal.dict
          [("status", PyVal.str "reviewing"), ("homework_name", PyVal.str "X")]]),
       ("current_date", PyVal.int 1000)]
      (PyVal.int 1000) rfl rfl rfl⟩

/-- C10: in a cycle where delivery succeeds but the response dict lacks
the `current_date` key, the poll cursor is set to the wall-clock time of
that moment (`int(time.time())`), not left unchanged. -/
theorem c10_cursor_fallback_to_now (s : LoopState) (env : CycleEnv)
    (kvs : List (String × PyVal)) (hw : PyVal) (rest : List PyVal) (msg : String)
    (hb : get_api_answer env.transport = Except.ok (PyVal.dict kvs))
    (hc : check_response (PyVal.dict kvs) = Except.ok (hw :: rest))
    (hp : parse_status hw = Except.ok msg)
    (hsend : env.sendOk = true)
    (hmiss : dictGet? kvs "current_date" = Option.none) :
    (loop_step s env).1.timestamp = PyVal.int env.now := by
  unfold loop_step cycle_body
  simp [hb, hc, hp, hsend, PyVal.get, hmiss]

/-- C10 witness: a response without `current_date`, successful delivery,
wall clock `77`: the cursor becomes `77` although it was `0` before. -/
theorem c10_cursor_fallback_to_now_witness :
    (loop_step ⟨PyVal.int 0, ""⟩
        ⟨Transport.response 200 (PyVal.dict
          [("homeworks", PyVal.list [PyVal.dict
              [("status", PyVal.str "reviewing"), ("homework_name", PyVal.str "X")]])]),
         true, 77⟩).1.timestamp = PyVal.int 77 :=
  c10_cursor_fallback_to_now ⟨PyVal.int 0, ""⟩ _ _ _ [] _ rfl rfl rfl rfl rfl

/-- C7: any error raised inside the cycle body (connection error,
invalid-response error, shape error, unknown-status error — every
`PyError` value alike) is caught at the loop boundary: the iteration makes
no delivery attempt, keeps the cursor, ends in the sleep phase, and the
loop proceeds to the next iteration exactly as from the handled state —
the error never terminates the iteration sequence. -/
theorem c7_loop_resilience (s : LoopState) (env : CycleEnv) (e : PyError)
    (rest : List CycleEnv)
    (he : cycle_body s env = Except.error e) :
    (loop_step s env).1.timestamp = s.timestamp
    ∧ (loop_step s env).2 = []
    ∧ run_loop s (env :: rest) = run_loop (loop_step s env).1 rest := by
  have hstep : loop_step s env =
      (⟨s.timestamp,
        if (("Сбой в работе программы: " ++ e.message) != s.last_error_message) = true
        then "Сбой в работе программы: " ++ e.message
        else s.last_error_message⟩, []) := by
    unfold loop_step
    rw [he]
    cases hcmp : (("Сбой в работе программы: " ++ e.message) != s.last_error_message) <;>
      simp [hcmp]
  refine ⟨by rw [hstep], by rw [hstep], ?_⟩
  simp [run_loop, hstep]

/-- C7 witness: a transport failure in the first of one remaining cycle:
the failing iteration attempts no delivery, keeps cursor `0`, and the loop
continues from the handled state. -/
theorem c7_loop_resilience_witness :
    (loop_step ⟨PyVal.int 0, ""⟩ ⟨Transport.exn "boom", true, 0⟩).1.timestamp = PyVal.int 0
    ∧ (loop_step ⟨PyVal.int 0, ""⟩ ⟨Transport.exn "boom", true, 0⟩).2 = []
    ∧ run_loop ⟨PyVal.int 0, ""⟩ [⟨Transport.exn "boom", true, 0⟩] =
        run_loop (loop_step ⟨PyVal.int 0, ""⟩ ⟨Transport.exn "boom", true, 0⟩).1 [] :=
  c7_loop_resilience ⟨PyVal.int 0, ""⟩ ⟨Transport.exn "boom", true, 0⟩
    (PyError.connectionError ("Ошибка соединения с API: " ++ "boom")) [] rfl

/-- C8: the cycle's behaviour depends only on the first entry of the
validated list and the `current_date` field: two fetched bodies that both
validate to lists with the same head and agree on the `current_date`
lookup produce the identical iteration outcome (same next state, same
delivery attempts), whatever their remaining entries are. -/
theorem c8_first_entry_only (s : LoopState) (tr1 tr2 : Transport) (sendOk : Bool)
    (now : Int) (r1 r2 hw : PyVal) (t1 t2 : List PyVal)
    (hb1 : get_api_answer tr1 = Except.ok r1)
    (hb2 : get_api_answer tr2 = Except.ok r2)
    (hc1 : check_response r1 = Except.ok (hw :: t1))
    (hc2 : check_response r2 = Except.ok (hw :: t2))
    (hcd : ∀ d, r1.get "current_date" d = r2.get "current_date" d) :
    loop_step s ⟨tr1, sendOk, now⟩ = loop_step s ⟨tr2, sendOk, now⟩ := by
  unfold loop_step cycle_body
  simp only [hb1, hb2, hc1, hc2]
  cases hp : parse_status hw with
  | ok msg => cases sendOk <;> simp [hp, hcd]
  | error e => simp [hp]

/-- C8 witness: two responses sharing the first entry and cursor field,
the second carrying an extra trailing entry and an extra key, yield the
same iteration outcome. -/
theorem c8_first_entry_only_witness :
    loop_step ⟨PyVal.int 0, ""⟩
      ⟨Transport.response 200 (PyVal.dict
        [("homeworks", PyVal.list [PyVal.dict
            [("status", PyVal.str "approved"), ("homework_name", PyVal.str "X")]]),
         ("current_date", PyVal.int 1000)]), true, 5⟩ =
    loop_step ⟨PyVal.int 0, ""⟩
      ⟨Transport.response 200 (PyVal.dict
        [("homeworks", PyVal.list
            [PyVal.dict [("status", PyVal.str "approved"), ("homework_name", PyVal.str "X")],
             PyVal.dict [("status", PyVal.str "rejected"), ("homework_name", PyVal.str "Y")]]),
         ("current_date", PyVal.int 1000), ("extra", PyVal.bool true)]), true, 5⟩ :=
  c8_first_entry_only ⟨PyVal.int 0, ""⟩ _ _ true 5 _ _
    (PyVal.dict [("status", PyVal.str "approved"), ("homework_name", PyVal.str "X")])
    [] [PyVal.dict [("status", PyVal.str "rejected"), ("homework_name", PyVal.str "Y")]]
    rfl rfl rfl rfl (fun _ => rfl)

end HomeworkBot
